import Mathlib

/-!
# Verification of the concept_stack voxel engine

A shallow embedding of the simulation core of the repository:

* `src/services/VoxelEngine.ts` — the voxel store, the mode state machine
  (STABLE / DISMANTLING / INTERACTIVE_REBUILD / REJECTING), the per-tick
  physics (`updatePhysics`) and the command handlers (`loadInitialModel`,
  `dismantle`, `rebuildLayer`, `rejectLayer`, `getStepCentroids`,
  `getJsonData`).
* `src/App.tsx` — the JSON import boundary (`handleJsonImport`), which
  normalizes raw external entries into `VoxelData` before handing them to
  the engine.

Modelling conventions:

* JavaScript numbers are rationals; NaN is modelled by `Option ℚ = none`
  (the engine paths reached by the claims never produce NaN positions, so
  positions/velocities are plain `ℚ`; the `stepIndex` field can receive a
  NaN from the import boundary and is kept as `Option ℚ`).
* `Math.random()` draws are explicit oracle arguments (one tuple per voxel
  index), as is the color-jitter of `THREE.Color.offsetHSL` (an oracle
  `ℕ → ℚ → ℚ` from voxel index and base color to jittered color) and the
  camera projection of `getStepCentroids` (an oracle from world position to
  normalized device coordinates).
* The two callbacks `onStateChange` / `onCountChange` are modelled as an
  event list returned alongside the new state.
* `CONFIG.FLOOR_Y` lives in `src/utils/voxelConstants.ts`, which is not part
  of the provided sources; the spec only calls it "a fixed floor threshold",
  so it is a parameter `floorY` of the physics step.
-/

/-- A JavaScript number: `none` models NaN. -/
abbrev JsNum := Option ℚ

/-- A JavaScript value, restricted to the shapes the import boundary
inspects. `jobj` stands for any value that is neither a primitive handled
specially nor `undefined`/`null` (objects, arrays, functions). -/
inductive JsVal where
  | jnum (q : JsNum)
  | jstr (s : String)
  | jundef
  | jnull
  | jbool (b : Bool)
  | jobj
deriving Repr, DecidableEq

/-- JavaScript truthiness (used by `v.c || v.color` and `Number(x) || 0`). -/
def JsVal.truthy : JsVal → Bool
  | .jnum (some q) => q != 0
  | .jnum none => false
  | .jstr s => !s.isEmpty
  | .jundef => false
  | .jnull => false
  | .jbool b => b
  | .jobj => true

/-- JavaScript `a || b`. -/
def jsOr (a b : JsVal) : JsVal := if a.truthy then a else b

/-- Value of the decimal digit list `l` (most significant first). -/
def decDigitsVal (l : List Char) : ℕ :=
  l.foldl (fun a c => a * 10 + (c.toNat - 48)) 0

/-- Value of a hex digit character, `none` if `c` is not a hex digit. -/
def hexVal? (c : Char) : Option ℕ :=
  if '0' ≤ c ∧ c ≤ '9' then some (c.toNat - 48)
  else if 'a' ≤ c ∧ c ≤ 'f' then some (c.toNat - 87)
  else if 'A' ≤ c ∧ c ≤ 'F' then some (c.toNat - 55)
  else none

/-- JS StrWhiteSpaceChar (space, tab, LF, CR, VT, FF, NBSP — the code points
JS string-to-number conversions skip). -/
def isJsWhitespace (c : Char) : Bool :=
  c == ' ' || c == '\t' || c == '\n' || c == '\r' || c == '\x0b' ||
    c == '\x0c' || c == '\xa0'

/-- Leading and trailing whitespace removal, as `Number(string)` performs. -/
def jsTrim (l : List Char) : List Char :=
  ((l.dropWhile isJsWhitespace).reverse.dropWhile isJsWhitespace).reverse

/-- The literal `Infinity`. -/
def isInfinityChars (l : List Char) : Bool :=
  l == "Infinity".toList

/-- An exponent suffix `e`/`E` with optional sign and a digit run, applied to
`base`; the empty remainder leaves `base`; anything else is NaN (`Number`
requires the whole string to match). -/
def expVal (base : ℚ) (pos : Bool) (l : List Char) : Option ℚ :=
  if l ≠ [] ∧ l.all Char.isDigit then
    some (if pos then base * 10 ^ decDigitsVal l else base / 10 ^ decDigitsVal l)
  else none

/-- Parse the optional ExponentPart after a decimal literal. -/
def exponentPart (base : ℚ) (l : List Char) : Option ℚ :=
  match l with
  | [] => some base
  | c :: r =>
    if c = 'e' ∨ c = 'E' then
      match r with
      | [] => none
      | c2 :: r2 =>
        if c2 = '-' then expVal base false r2
        else if c2 = '+' then expVal base true r2
        else expVal base true (c2 :: r2)
    else none

/-- JS StrUnsignedDecimalLiteral without the `Infinity` case: digits with an
optional `.` fraction and optional exponent, or a leading-dot fraction; any
other shape is NaN. -/
def strDecimal (l : List Char) : Option ℚ :=
  let ds := l.takeWhile Char.isDigit
  let r1 := l.dropWhile Char.isDigit
  match r1 with
  | '.' :: r2 =>
    let fs := r2.takeWhile Char.isDigit
    let r3 := r2.dropWhile Char.isDigit
    if ds.isEmpty && fs.isEmpty then none
    else exponentPart ((decDigitsVal ds : ℚ) + (decDigitsVal fs : ℚ) / (10 ^ fs.length : ℚ)) r3
  | _ => if ds.isEmpty then none else exponentPart (decDigitsVal ds : ℚ) r1

/-- Value of a digit run in base `b ≤ 16` (digits must be valid for `b`),
NaN when empty or out of range. -/
def radixVal (b : ℕ) (l : List Char) : Option ℚ :=
  if l ≠ [] ∧ l.all (fun c => (hexVal? c).any (· < b)) then
    some ((l.foldl (fun a c => a * b + ((hexVal? c).getD 0)) 0 : ℕ) : ℚ)
  else none

/-- JS NonDecimalIntegerLiteral (`0x`/`0o`/`0b`, unsigned only) falling back
to the decimal grammar. -/
def strRadix (l : List Char) : Option ℚ :=
  match l with
  | c0 :: c1 :: r =>
    if c0 = '0' ∧ (c1 = 'x' ∨ c1 = 'X') then radixVal 16 r
    else if c0 = '0' ∧ (c1 = 'o' ∨ c1 = 'O') then radixVal 8 r
    else if c0 = '0' ∧ (c1 = 'b' ∨ c1 = 'B') then radixVal 2 r
    else strDecimal (c0 :: c1 :: r)
  | _ => strDecimal l

/-- The JS `Number(string)` conversion over exact rationals: trim whitespace,
empty is 0, an optional sign followed by a decimal/float/exponent literal, or
an unsigned `0x`/`0o`/`0b` literal; everything else is NaN. The single
deviation from JS is forced by the codomain: JS numbers are binary doubles
(so e.g. `Number("0.1")` is the nearest double, here the exact `1/10` — the
whole embedding treats JS numbers as exact rationals) and `±Infinity`, which
`ℚ` cannot represent, comes out as NaN; theorems quantifying over strings
exclude `Infinity` inputs via `isInfinityStr`. -/
def strToNumber (s : String) : JsNum :=
  match jsTrim s.toList with
  | [] => some 0
  | c :: r =>
    if c = '-' then
      if isInfinityChars r then none else (strDecimal r).map Neg.neg
    else if c = '+' then
      if isInfinityChars r then none else strDecimal r
    else
      if isInfinityChars (c :: r) then none else strRadix (c :: r)

/-- JavaScript `Number(v)` for the value shapes of `JsVal`. -/
def JsVal.toNumber : JsVal → JsNum
  | .jnum q => q
  | .jstr s => strToNumber s
  | .jundef => none
  | .jnull => some 0
  | .jbool b => some (if b then 1 else 0)
  | .jobj => none

/-- JavaScript `Number(v) || d` for a number default `d` (the import boundary
uses `d = 0`): NaN and 0 both fall back to the default. -/
def numOr (n : JsNum) (d : ℚ) : ℚ :=
  match n with
  | none => d
  | some q => if q = 0 then d else q

/-- Value of the longest hex-digit run starting the list; `none` (NaN) when
there is no leading hex digit — the core of JS `parseInt(s, 16)`. -/
def hexDigitsVal (l : List Char) : Option ℕ :=
  let ds := l.takeWhile (fun c => (hexVal? c).isSome)
  if ds.isEmpty then none
  else some (ds.foldl (fun a c => a * 16 + ((hexVal? c).getD 0)) 0)

/-- With radix 16, `parseInt` strips an optional `0x`/`0X` prefix before
reading the digit run. -/
def hexAfterPrefix (l : List Char) : Option ℕ :=
  match l with
  | c0 :: c1 :: r =>
    if c0 = '0' ∧ (c1 = 'x' ∨ c1 = 'X') then hexDigitsVal r
    else hexDigitsVal (c0 :: c1 :: r)
  | _ => hexDigitsVal l

/-- `parseInt(s, 16)` after the whitespace skip: an optional sign, an
optional `0x`/`0X` prefix, then the longest hex-digit run; NaN when no digit
follows. -/
def parseIntHexTrimmed : List Char → JsNum
  | [] => none
  | c :: r =>
    if c = '-' then (hexAfterPrefix r).map (fun n => -(n : ℚ))
    else if c = '+' then (hexAfterPrefix r).map (fun n => (n : ℚ))
    else (hexAfterPrefix (c :: r)).map (fun n => (n : ℚ))

/-- JS `parseInt(s, 16)` on a character list: skip leading whitespace, then
sign, optional `0x` prefix, and the digit run. -/
def parseIntHexL (l : List Char) : JsNum :=
  parseIntHexTrimmed (l.dropWhile isJsWhitespace)

/-- Lowercase hex digit character for `n < 16`. -/
def hexDigitChar (n : ℕ) : Char :=
  if n < 10 then Char.ofNat (48 + n) else Char.ofNat (87 + n)

/-- The six lowercase hex digits of `n % 16^6`, most significant first —
models `THREE.Color.getHexString()` for integer-valued colors in range
(the only colors this repository stores). -/
def natToHex6 (n : ℕ) : List Char :=
  [hexDigitChar (n / 16 ^ 5 % 16), hexDigitChar (n / 16 ^ 4 % 16),
   hexDigitChar (n / 16 ^ 3 % 16), hexDigitChar (n / 16 ^ 2 % 16),
   hexDigitChar (n / 16 % 16), hexDigitChar (n % 16)]

/-- Hex digits of a rational color value: integer colors in `[0, 16^6)` are
rendered exactly; out-of-range values (never produced by the repository) are
floored and wrapped. -/
def colorHex (q : ℚ) : List Char := natToHex6 ((⌊q⌋).toNat % 16 ^ 6)

/-- `AppState` from `src/types.ts`. -/
inductive AppState where
  | STABLE
  | DISMANTLING
  | REBUILDING
  | INTERACTIVE_REBUILD
  | REJECTING
deriving Repr, DecidableEq

/-- `VoxelData` from `src/types.ts`: one entry of a model handed to
`loadInitialModel`. `stepIndex = none` models an absent (`undefined`) field;
`some none` a present NaN. -/
structure VoxelData where
  x : ℚ
  y : ℚ
  z : ℚ
  color : ℚ
  stepIndex : Option JsNum
deriving Repr, DecidableEq

/-- `SimulationVoxel` from `src/types.ts`. -/
structure SimVoxel where
  id : ℕ
  x : ℚ
  y : ℚ
  z : ℚ
  originalX : ℚ
  originalY : ℚ
  originalZ : ℚ
  color : ℚ
  stepIndex : JsNum
  vx : ℚ
  vy : ℚ
  vz : ℚ
  rx : ℚ
  ry : ℚ
  rz : ℚ
  rvx : ℚ
  rvy : ℚ
  rvz : ℚ
deriving Repr, DecidableEq

/-- `RebuildTarget` from `src/types.ts`. -/
structure RebuildTarget where
  x : ℚ
  y : ℚ
  z : ℚ
  delay : ℚ
  isRubble : Bool
deriving Repr, DecidableEq

/-- The notifications the engine fires (`onStateChange` / `onCountChange`),
in call order. -/
inductive EngineEvent where
  | stateChange (s : AppState)
  | countChange (n : ℕ)
deriving Repr, DecidableEq

/-- The mutable fields of `VoxelEngine` that belong to the simulation core
(rendering members are external collaborators). -/
structure EngineState where
  voxels : List SimVoxel
  rebuildTargets : List RebuildTarget
  activeRebuildIndices : Finset ℕ
  rejectingIndices : Finset ℕ
  state : AppState
deriving DecidableEq

/-- `list.map((v, i) => f(i, v))` with the running index made explicit, so
that structural induction is available. -/
def mapWithIdx (f : ℕ → α → β) : ℕ → List α → List β
  | _, [] => []
  | i, a :: rest => f i a :: mapWithIdx f (i + 1) rest

/-- `v.stepIndex === tag` for an actual (non-NaN) number `tag`: a NaN
`stepIndex` compares unequal to everything, as in JS. -/
def hasTag (tag : ℚ) (v : SimVoxel) : Bool := v.stepIndex == some tag

/-- The one freshly created voxel of `createVoxels` (VoxelEngine.ts lines
118–132): id from the index, position = original position = the input
position, jittered color, `stepIndex` defaulted to -1 when absent, all
velocities and rotations zero. -/
def mkVoxel (jitter : ℕ → ℚ → ℚ) (i : ℕ) (v : VoxelData) : SimVoxel :=
  { id := i
    x := v.x, y := v.y, z := v.z
    originalX := v.x, originalY := v.y, originalZ := v.z
    color := jitter i v.color
    stepIndex := v.stepIndex.getD (some (-1))
    vx := 0, vy := 0, vz := 0
    rx := 0, ry := 0, rz := 0
    rvx := 0, rvy := 0, rvz := 0 }

/-- `VoxelEngine.createVoxels` restricted to its simulation effect: the new
voxel array (mesh/scene work is rendering). -/
def createVoxels (jitter : ℕ → ℚ → ℚ) (data : List VoxelData) : List SimVoxel :=
  mapWithIdx (mkVoxel jitter) 0 data

/-- `VoxelEngine.loadInitialModel` (lines 86–105): replace the voxels, fire
count-changed, set STABLE, fire state-changed, clear both index sets, drop
the rebuild targets. (Camera re-centering is rendering.) -/
def loadInitialModel (jitter : ℕ → ℚ → ℚ) (data : List VoxelData)
    (s : EngineState) : EngineState × List EngineEvent :=
  let vs := createVoxels jitter data
  ({ s with
      voxels := vs
      rebuildTargets := []
      activeRebuildIndices := ∅
      rejectingIndices := ∅
      state := .STABLE },
   [.countChange vs.length, .stateChange .STABLE])

/-- The six `Math.random()` draws `dismantle` makes for one voxel. -/
structure RandSix where
  a : ℚ
  b : ℚ
  c : ℚ
  d : ℚ
  e : ℚ
  f : ℚ
deriving Repr, DecidableEq

/-- The velocity kick one voxel receives in `dismantle` (lines 171–180). -/
def dismantleKick (r : ℕ → RandSix) (i : ℕ) (v : SimVoxel) : SimVoxel :=
  { v with
      vx := ((r i).a - 0.5) * 2
      vy := (r i).b * 1.5 + 0.5
      vz := ((r i).c - 0.5) * 2
      rvx := ((r i).d - 0.5) * 0.4
      rvy := ((r i).e - 0.5) * 0.4
      rvz := ((r i).f - 0.5) * 0.4 }

/-- `VoxelEngine.dismantle` (lines 157–181): a no-op unless STABLE;
otherwise set DISMANTLING (firing state-changed), clear both index sets,
snapshot rebuild targets from the original positions, and kick every voxel. -/
def dismantle (r : ℕ → RandSix) (s : EngineState) : EngineState × List EngineEvent :=
  if s.state ≠ .STABLE then (s, [])
  else
    ({ s with
        state := .DISMANTLING
        activeRebuildIndices := ∅
        rejectingIndices := ∅
        rebuildTargets := s.voxels.map fun v =>
          ⟨v.originalX, v.originalY, v.originalZ, 0, false⟩
        voxels := mapWithIdx (dismantleKick r) 0 s.voxels },
     [.stateChange .DISMANTLING])

/-- The indices of the voxels carrying `tag` (the set of `i` the
`forEach` loops of `rebuildLayer` / `rejectLayer` touch). -/
def matchingIdx (vs : List SimVoxel) (tag : ℚ) : Finset ℕ :=
  ((List.range vs.length).filter
    (fun i => (vs.get? i).any (hasTag tag))).toFinset

/-- `VoxelEngine.rebuildLayer` (lines 183–198): unconditionally force
INTERACTIVE_REBUILD (firing state-changed), add every voxel index carrying
the tag to the active set and remove it from the rejecting set; return
whether at least one voxel matched. -/
def rebuildLayer (tag : ℚ) (s : EngineState) :
    (EngineState × List EngineEvent) × Bool :=
  let m := matchingIdx s.voxels tag
  (({ s with
        state := .INTERACTIVE_REBUILD
        activeRebuildIndices := s.activeRebuildIndices ∪ m
        rejectingIndices := s.rejectingIndices \ m },
    [.stateChange .INTERACTIVE_REBUILD]),
   decide (0 < s.voxels.countP (hasTag tag)))

/-- `VoxelEngine.rejectLayer` (lines 200–222), minus the timer it schedules
(modelled separately as `rejectTimerFire`): set REJECTING (firing
state-changed), add every matching voxel index to the rejecting set, and
give each matching voxel the jiggle velocity (two `Math.random()` draws,
supplied per voxel index by the oracle `r`). -/
def rejectLayer (tag : ℚ) (r : ℕ → ℚ × ℚ) (s : EngineState) :
    EngineState × List EngineEvent :=
  ({ s with
      state := .REJECTING
      rejectingIndices := s.rejectingIndices ∪ matchingIdx s.voxels tag
      voxels := mapWithIdx (fun i v =>
        if hasTag tag v then
          { v with vy := 0.5, vx := ((r i).1 - 0.5) * 0.5, vz := ((r i).2 - 0.5) * 0.5 }
        else v) 0 s.voxels },
   [.stateChange .REJECTING])

/-- The `setTimeout` callback scheduled by `rejectLayer` (lines 214–221):
only if the mode is still REJECTING, revert to INTERACTIVE_REBUILD (firing
state-changed) and clear the rejecting set; otherwise it is a stale no-op. -/
def rejectTimerFire (s : EngineState) : EngineState × List EngineEvent :=
  if s.state = .REJECTING then
    ({ s with state := .INTERACTIVE_REBUILD, rejectingIndices := ∅ },
     [.stateChange .INTERACTIVE_REBUILD])
  else (s, [])

/-- One rubble-physics step for one voxel (VoxelEngine.ts lines 269–288):
gravity into `vy`, integrate position (with the already-updated `vy`) and
rotation, friction, then floor collision with bounce, damping, and the
small-velocity snap to zero. -/
def rubbleStep (floorY : ℚ) (v : SimVoxel) : SimVoxel :=
  let vy1 := v.vy - 0.04
  let x1 := v.x + v.vx
  let y1 := v.y + vy1
  let z1 := v.z + v.vz
  let rx1 := v.rx + v.rvx
  let ry1 := v.ry + v.rvy
  let rz1 := v.rz + v.rvz
  let vx1 := v.vx * 0.98
  let vz1 := v.vz * 0.98
  let vy2 := vy1 * 0.99
  if y1 < floorY + 0.5 then
    let vy3 := vy2 * (-0.5)
    { v with
        x := x1, y := floorY + 0.5, z := z1
        rx := rx1, ry := ry1, rz := rz1
        vx := vx1 * 0.8, vz := vz1 * 0.8
        vy := if |vy3| < 0.1 then 0 else vy3
        rvx := v.rvx * 0.8, rvy := v.rvy * 0.8, rvz := v.rvz * 0.8 }
  else
    { v with
        x := x1, y := y1, z := z1
        rx := rx1, ry := ry1, rz := rz1
        vx := vx1, vy := vy2, vz := vz1 }

/-- One flight step toward the rebuild target `t` (lines 296–324): while the
squared distance exceeds 0.05, move 12% of the remaining displacement (and
decay rotation to zero at the same rate); once inside the epsilon, snap to
the target and zero the rotation — but, as in the source, only when the
x-coordinate still differs from the target's. -/
def flightStep (t : RebuildTarget) (v : SimVoxel) : SimVoxel :=
  let dx := t.x - v.x
  let dy := t.y - v.y
  let dz := t.z - v.z
  let distSq := dx * dx + dy * dy + dz * dz
  if distSq > 0.05 then
    { v with
        x := v.x + dx * 0.12, y := v.y + dy * 0.12, z := v.z + dz * 0.12
        rx := v.rx + (0 - v.rx) * 0.12
        ry := v.ry + (0 - v.ry) * 0.12
        rz := v.rz + (0 - v.rz) * 0.12 }
  else if v.x ≠ t.x then
    { v with x := t.x, y := t.y, z := t.z, rx := 0, ry := 0, rz := 0 }
  else v

/-- One reject-bounce step for one voxel (lines 331–339): gravity, integrate
position, floor clamp with a -0.4 bounce. -/
def rejectBounceStep (floorY : ℚ) (v : SimVoxel) : SimVoxel :=
  let vy1 := v.vy - 0.04
  let x1 := v.x + v.vx
  let y1 := v.y + vy1
  let z1 := v.z + v.vz
  if y1 < floorY + 0.5 then
    { v with x := x1, y := floorY + 0.5, z := z1, vy := vy1 * (-0.4) }
  else
    { v with x := x1, y := y1, z := z1, vy := vy1 }

/-- The rebuild target used for index `i` (line 298):
`this.rebuildTargets[i] || {x: originalX, y: originalY, z: originalZ}`. -/
def targetFor (targets : List RebuildTarget) (i : ℕ) (v : SimVoxel) : RebuildTarget :=
  (targets.get? i).getD ⟨v.originalX, v.originalY, v.originalZ, 0, false⟩

/-- `VoxelEngine.updatePhysics` (lines 259–341): nothing when STABLE;
otherwise (1) rubble physics for every voxel in neither index set, then
(2) flight physics for the active set when the mode is INTERACTIVE_REBUILD
or REJECTING, then (3) the reject bounce for the rejecting set when the
mode is REJECTING. -/
def updatePhysics (floorY : ℚ) (s : EngineState) : EngineState :=
  if s.state = .STABLE then s
  else
    let vs1 := mapWithIdx (fun i v =>
      if i ∉ s.activeRebuildIndices ∧ i ∉ s.rejectingIndices
      then rubbleStep floorY v else v) 0 s.voxels
    let vs2 :=
      if s.state = .INTERACTIVE_REBUILD ∨ s.state = .REJECTING then
        mapWithIdx (fun i v =>
          if i ∈ s.activeRebuildIndices
          then flightStep (targetFor s.rebuildTargets i v) v else v) 0 vs1
      else vs1
    let vs3 :=
      if s.state = .REJECTING then
        mapWithIdx (fun i v =>
          if i ∈ s.rejectingIndices then rejectBounceStep floorY v else v) 0 vs2
      else vs2
    { s with voxels := vs3 }

/-- `ScreenPosition` from `src/types.ts`. -/
structure ScreenPosition where
  x : ℚ
  y : ℚ
  visible : Bool
deriving Repr, DecidableEq

/-- The per-tag accumulator of `getStepCentroids` (lines 228–236): the JS
code buckets voxels with `stepIndex >= 0` into `sums` keyed by the exact
number, and the loop then reads the bucket of key `tag`; the content of that
one bucket is this fold over the voxel list (a voxel lands in bucket `tag`
iff its `stepIndex` equals `tag`, which for a natural-number `tag` already
implies `stepIndex >= 0`). -/
def sumsFor (vs : List SimVoxel) (tag : ℚ) : ℚ × ℚ × ℚ × ℕ :=
  vs.foldl (fun acc v =>
    if hasTag tag v
    then (acc.1 + v.x, acc.2.1 + v.y, acc.2.2.1 + v.z, acc.2.2.2 + 1)
    else acc) (0, 0, 0, 0)

/-- `VoxelEngine.getStepCentroids` (lines 224–257). The camera projection
`vec.project(camera)` is the oracle `proj` (world position to normalized
device coordinates); `w`/`h` are the container's client width and height.
The engine state is returned unchanged alongside the result: the query
mutates nothing. -/
def centroidEntry (proj : ℚ × ℚ × ℚ → ℚ × ℚ × ℚ) (w h : ℚ)
    (vs : List SimVoxel) (i : ℕ) : ScreenPosition :=
  let t := sumsFor vs (i : ℚ)
  if 0 < t.2.2.2 then
    let p := proj (t.1 / (t.2.2.2 : ℚ), t.2.1 / (t.2.2.2 : ℚ), t.2.2.1 / (t.2.2.2 : ℚ))
    { x := (p.1 * 0.5 + 0.5) * w
      y := (-(p.2.1 * 0.5) + 0.5) * h
      visible := decide (p.2.2 < 1) && decide (|p.1| < 1.1) && decide (|p.2.1| < 1.1) }
  else ⟨0, 0, false⟩

def getStepCentroids (proj : ℚ × ℚ × ℚ → ℚ × ℚ × ℚ) (w h : ℚ)
    (s : EngineState) (stepCount : ℕ) : List ScreenPosition × EngineState :=
  ((List.range stepCount).map (centroidEntry proj w h s.voxels), s)

/-- The centroid entry the spec describes for a tag with at least one
matching voxel: "the average world position of all voxels currently
carrying that tag", projected to screen space, with the source's
visibility bounds. Stated from the spec's words over the matching voxel
list `m`, to be compared with the engine's `getStepCentroids`. -/
def specCentroid (proj : ℚ × ℚ × ℚ → ℚ × ℚ × ℚ) (w h : ℚ)
    (m : List SimVoxel) : ScreenPosition :=
  let p := proj ((m.map SimVoxel.x).sum / (m.length : ℚ),
                 (m.map SimVoxel.y).sum / (m.length : ℚ),
                 (m.map SimVoxel.z).sum / (m.length : ℚ))
  { x := (p.1 * 0.5 + 0.5) * w
    y := (-(p.2.1 * 0.5) + 0.5) * h
    visible := decide (p.2.2 < 1) && decide (|p.1| < 1.1) && decide (|p.2.1| < 1.1) }

/-- One entry of the raw JSON array at the import/export boundary
(`handleJsonImport` reads the fields `x`, `y`, `z`, `c`, `color`,
`stepIndex`; a field the entry does not carry is `jundef`). -/
structure RawVoxel where
  x : JsVal
  y : JsVal
  z : JsVal
  c : JsVal
  color : JsVal
  stepIndex : JsVal
deriving Repr, DecidableEq

/-- How `JSON.stringify` renders a JS number field: an actual (finite)
number as itself, NaN as `null`. -/
def jsonNum (q : JsNum) : JsVal :=
  match q with
  | some q0 => .jnum (some q0)
  | none => .jnull

/-- The JSON object `getJsonData` serializes for one voxel (VoxelEngine.ts
lines 366–368): current position, `'#' + color.getHexString()`, and the
step index (no `c` field). A NaN step index — possible after importing a
malformed `stepIndex` — is rendered as `null` by `JSON.stringify`. -/
def voxelToJson (v : SimVoxel) : RawVoxel :=
  { x := .jnum (some v.x), y := .jnum (some v.y), z := .jnum (some v.z)
    c := .jundef
    color := .jstr (String.mk ('#' :: colorHex v.color))
    stepIndex := jsonNum v.stepIndex }

/-- `VoxelEngine.getJsonData` (lines 365–369) as the JSON array value it
serializes, for every voxel in index order. -/
def getJsonData (s : EngineState) : List RawVoxel :=
  s.voxels.map voxelToJson

/-- The string case of the import's color handling (App.tsx lines 178–180):
strip a leading `#`, then `parseInt(_, 16)`. -/
def parseColorString (t : String) : JsNum :=
  match t.toList with
  | c0 :: rest => if c0 = '#' then parseIntHexL rest else parseIntHexL (c0 :: rest)
  | [] => parseIntHexL []

/-- The color normalization inside `handleJsonImport` (App.tsx lines
175–189): `let colorVal = v.c || v.color`, parse a string, pass a number
through, leave the neutral gray `0xCCCCCC` otherwise; a NaN result also
falls back to the gray. -/
def normalizeColor (c color : JsVal) : ℚ :=
  let colorInt : JsNum :=
    match jsOr c color with
    | .jstr s0 => parseColorString s0
    | .jnum q => q
    | _ => some 0xCCCCCC
  colorInt.getD 0xCCCCCC

/-- The per-entry normalization of `handleJsonImport` (App.tsx lines
174–192): coordinates via `Number(_) || 0`, color via `normalizeColor`,
`stepIndex` via `Number(_)` when the field is present and `-1` otherwise. -/
def normalizeEntry (v : RawVoxel) : VoxelData :=
  { x := numOr v.x.toNumber 0
    y := numOr v.y.toNumber 0
    z := numOr v.z.toNumber 0
    color := normalizeColor v.c v.color
    stepIndex := some (if v.stepIndex = .jundef then some (-1) else v.stepIndex.toNumber) }

/-- The success path of `handleJsonImport` (App.tsx lines 169–205): map the
normalization over the raw array and load the result. -/
def handleJsonImport (jitter : ℕ → ℚ → ℚ) (raw : List RawVoxel)
    (s : EngineState) : EngineState × List EngineEvent :=
  loadInitialModel jitter (raw.map normalizeEntry) s

/-- An engine that has loaded nothing yet (the constructor's field
initializers). -/
def exEmptyState : EngineState := ⟨[], [], ∅, ∅, .STABLE⟩

/-- A concrete voxel carrying step tag 0, used to instantiate theorems. -/
def exVoxel : SimVoxel :=
  { id := 0
    x := 1, y := 2, z := 3
    originalX := 1, originalY := 2, originalZ := 3
    color := 0
    stepIndex := some 0
    vx := 0, vy := 0, vz := 0
    rx := 0, ry := 0, rz := 0
    rvx := 0, rvy := 0, rvz := 0 }

/-- A stable engine holding the single voxel `exVoxel`. -/
def exState : EngineState := ⟨[exVoxel], [], ∅, ∅, .STABLE⟩

/-- A voxel whose x-coordinate already equals its rebuild target's x while y
is still 0.2 above it (squared distance 0.04 < 0.05), with a leftover
rotation. Reachable: `dismantle` with all `Math.random()` draws equal to 0.5
gives `vx = vz = 0`, so x and z never leave their original values while the
voxel falls as rubble; `attemptStep(0)` then flies it back up along y. -/
def stuckVoxel : SimVoxel :=
  { id := 0
    x := 0, y := 0.2, z := 0
    originalX := 0, originalY := 0, originalZ := 0
    color := 0
    stepIndex := some 0
    vx := 0, vy := 0, vz := 0
    rx := 0.3, ry := 0, rz := 0
    rvx := 0, rvy := 0, rvz := 0 }

/-- An interactive-rebuild engine whose single active voxel is `stuckVoxel`
(its rebuild target is its original position, as `dismantle` sets it). -/
def stuckState : EngineState :=
  ⟨[stuckVoxel], [⟨0, 0, 0, 0, false⟩], {0}, ∅, .INTERACTIVE_REBUILD⟩

/-- A voxel carrying a NaN step tag, as the core holds after importing an
entry with a malformed `stepIndex`. -/
def nanVoxel : SimVoxel :=
  { id := 0
    x := 1, y := 2, z := 3
    originalX := 1, originalY := 2, originalZ := 3
    color := 0
    stepIndex := none
    vx := 0, vy := 0, vz := 0
    rx := 0, ry := 0, rz := 0
    rvx := 0, rvy := 0, rvz := 0 }

/-- A stable engine holding the single NaN-tagged voxel `nanVoxel`. -/
def nanState : EngineState := ⟨[nanVoxel], [], ∅, ∅, .STABLE⟩

/-! ## Basic lemmas about the embedding -/

theorem length_mapWithIdx (f : ℕ → α → β) (i : ℕ) (l : List α) :
    (mapWithIdx f i l).length = l.length := by
  induction l generalizing i with
  | nil => rfl
  | cons a t ih => simp [mapWithIdx, ih]

theorem get?_mapWithIdx (f : ℕ → α → β) (i j : ℕ) (l : List α) :
    (mapWithIdx f i l).get? j = (l.get? j).map (f (i + j)) := by
  induction l generalizing i j with
  | nil => simp [mapWithIdx]
  | cons a t ih =>
    cases j with
    | zero => simp [mapWithIdx]
    | succ j =>
      show (mapWithIdx f (i + 1) t).get? j = (t.get? j).map (f (i + (j + 1)))
      rw [ih (i + 1) j, show i + 1 + j = i + (j + 1) from by omega]

theorem mem_matchingIdx {vs : List SimVoxel} {tag : ℚ} {i : ℕ} :
    i ∈ matchingIdx vs tag ↔ ∃ v, vs.get? i = some v ∧ hasTag tag v = true := by
  unfold matchingIdx
  simp only [List.mem_toFinset, List.mem_filter, List.mem_range]
  constructor
  · rintro ⟨hlt, hany⟩
    cases h : vs.get? i with
    | none => rw [h] at hany; simp [Option.any] at hany
    | some v => rw [h] at hany; exact ⟨v, rfl, by simpa [Option.any] using hany⟩
  · rintro ⟨v, hv, ht⟩
    have hlt : i < vs.length := by
      by_contra hge
      rw [List.get?_eq_none.mpr (Nat.le_of_not_lt hge)] at hv
      exact Option.noConfusion hv
    exact ⟨hlt, by rw [hv]; simpa [Option.any] using ht⟩

theorem matchingIdx_empty_iff {vs : List SimVoxel} {tag : ℚ} :
    matchingIdx vs tag = ∅ ↔ vs.countP (hasTag tag) = 0 := by
  rw [Finset.eq_empty_iff_forall_not_mem, List.countP_eq_zero]
  constructor
  · intro h v hv htag
    obtain ⟨i, hi⟩ := List.mem_iff_get?.mp hv
    exact h i (mem_matchingIdx.mpr ⟨v, hi, htag⟩)
  · intro h i hi
    obtain ⟨v, hv, ht⟩ := mem_matchingIdx.mp hi
    exact h v (List.get?_mem hv) ht

theorem updatePhysics_state (fY : ℚ) (s : EngineState) :
    (updatePhysics fY s).state = s.state := by
  unfold updatePhysics; split <;> rfl

theorem updatePhysics_active (fY : ℚ) (s : EngineState) :
    (updatePhysics fY s).activeRebuildIndices = s.activeRebuildIndices := by
  unfold updatePhysics; split <;> rfl

theorem updatePhysics_rejecting (fY : ℚ) (s : EngineState) :
    (updatePhysics fY s).rejectingIndices = s.rejectingIndices := by
  unfold updatePhysics; split <;> rfl

theorem iterate_updatePhysics_state (fY : ℚ) (s : EngineState) (n : ℕ) :
    ((updatePhysics fY)^[n] s).state = s.state := by
  induction n with
  | zero => rfl
  | succ n ih => rw [Function.iterate_succ_apply', updatePhysics_state, ih]

theorem iterate_updatePhysics_rejecting (fY : ℚ) (s : EngineState) (n : ℕ) :
    ((updatePhysics fY)^[n] s).rejectingIndices = s.rejectingIndices := by
  induction n with
  | zero => rfl
  | succ n ih => rw [Function.iterate_succ_apply', updatePhysics_rejecting, ih]

theorem foldl_sumsFor (vs : List SimVoxel) (tag : ℚ) (a b c : ℚ) (k : ℕ) :
    vs.foldl (fun acc v =>
      if hasTag tag v
      then (acc.1 + v.x, acc.2.1 + v.y, acc.2.2.1 + v.z, acc.2.2.2 + 1)
      else acc) (a, b, c, k) =
    (a + ((vs.filter (hasTag tag)).map SimVoxel.x).sum,
     b + ((vs.filter (hasTag tag)).map SimVoxel.y).sum,
     c + ((vs.filter (hasTag tag)).map SimVoxel.z).sum,
     k + (vs.filter (hasTag tag)).length) := by
  induction vs generalizing a b c k with
  | nil => simp
  | cons v t ih =>
    by_cases h : hasTag tag v = true
    · simp only [List.foldl_cons, h, if_true, List.filter_cons_of_pos h,
        List.map_cons, List.sum_cons, List.length_cons, ih]
      simp only [Prod.mk.injEq]
      refine ⟨by ring, by ring, by ring, by omega⟩
    · simp only [List.foldl_cons, h, if_false, List.filter_cons_of_neg h, ih,
        Bool.false_eq_true]

theorem sumsFor_eq (vs : List SimVoxel) (tag : ℚ) :
    sumsFor vs tag =
      (((vs.filter (hasTag tag)).map SimVoxel.x).sum,
       ((vs.filter (hasTag tag)).map SimVoxel.y).sum,
       ((vs.filter (hasTag tag)).map SimVoxel.z).sum,
       (vs.filter (hasTag tag)).length) := by
  have h := foldl_sumsFor vs tag 0 0 0 0
  simpa [sumsFor] using h

theorem numOr_some_zero (q : ℚ) : numOr (some q) 0 = q := by
  simp only [numOr]
  split <;> simp_all

theorem hexVal?_hexDigitChar : ∀ d : ℕ, d < 16 → hexVal? (hexDigitChar d) = some d := by
  decide

theorem hexDigitChar_props :
    ∀ d : ℕ, d < 16 →
      isJsWhitespace (hexDigitChar d) = false ∧
      hexDigitChar d ≠ '-' ∧ hexDigitChar d ≠ '+' ∧
      hexDigitChar d ≠ 'x' ∧ hexDigitChar d ≠ 'X' := by
  decide

theorem hexDigitsVal_natToHex6 (n : ℕ) (h : n < 16 ^ 6) :
    hexDigitsVal (natToHex6 n) = some n := by
  have h5 := hexVal?_hexDigitChar (n / 16 ^ 5 % 16) (Nat.mod_lt _ (by norm_num))
  have h4 := hexVal?_hexDigitChar (n / 16 ^ 4 % 16) (Nat.mod_lt _ (by norm_num))
  have h3 := hexVal?_hexDigitChar (n / 16 ^ 3 % 16) (Nat.mod_lt _ (by norm_num))
  have h2 := hexVal?_hexDigitChar (n / 16 ^ 2 % 16) (Nat.mod_lt _ (by norm_num))
  have h1 := hexVal?_hexDigitChar (n / 16 % 16) (Nat.mod_lt _ (by norm_num))
  have h0 := hexVal?_hexDigitChar (n % 16) (Nat.mod_lt _ (by norm_num))
  unfold natToHex6 hexDigitsVal
  simp only [List.takeWhile_cons, h5, h4, h3, h2, h1, h0, Option.isSome_some,
    if_true, List.takeWhile_nil, List.isEmpty_cons, Bool.false_eq_true, if_false,
    List.foldl_cons, List.foldl_nil, Option.getD_some, Option.some.injEq]
  simp only [show (16 : ℕ) ^ 5 = 1048576 from by norm_num,
    show (16 : ℕ) ^ 4 = 65536 from by norm_num,
    show (16 : ℕ) ^ 3 = 4096 from by norm_num,
    show (16 : ℕ) ^ 2 = 256 from by norm_num] at *
  rw [show (16 : ℕ) ^ 6 = 16777216 from by norm_num] at h
  omega

theorem parseIntHexL_natToHex6 (n : ℕ) (h : n < 16 ^ 6) :
    parseIntHexL (natToHex6 n) = some (n : ℚ) := by
  obtain ⟨hw5, hm5, hp5, hx5, hX5⟩ :=
    hexDigitChar_props (n / 16 ^ 5 % 16) (Nat.mod_lt _ (by norm_num))
  obtain ⟨hw4, hm4, hp4, hx4, hX4⟩ :=
    hexDigitChar_props (n / 16 ^ 4 % 16) (Nat.mod_lt _ (by norm_num))
  have hv := hexDigitsVal_natToHex6 n h
  unfold natToHex6 at hv ⊢
  unfold parseIntHexL
  rw [List.dropWhile_cons, if_neg (by rw [hw5]; simp)]
  simp only [parseIntHexTrimmed, if_neg hm5, if_neg hp5]
  simp only [hexAfterPrefix]
  rw [if_neg ?side, hv]
  · rfl
  case side =>
    rintro ⟨-, hc | hc⟩
    · exact hx4 hc
    · exact hX4 hc

theorem colorHex_natCast (n : ℕ) (h : n < 16 ^ 6) : colorHex (n : ℚ) = natToHex6 n := by
  unfold colorHex
  rw [Int.floor_natCast, Int.toNat_natCast, Nat.mod_eq_of_lt h]

theorem normalizeColor_hexString (n : ℕ) (h : n < 16 ^ 6) :
    normalizeColor .jundef (.jstr (String.mk ('#' :: natToHex6 n))) = (n : ℚ) := by
  show (parseIntHexL (natToHex6 n)).getD 0xCCCCCC = (n : ℚ)
  rw [parseIntHexL_natToHex6 n h]
  rfl

/-! ## Claim C10 -/

/-- C10: `attemptStep` (`rebuildLayer`) unconditionally sets the mode to
INTERACTIVE_REBUILD and fires the mode-changed notification, for every
current mode and every tag — the mode change is not guarded by the current
state or by the tag having any effect. -/
theorem claim_C10 (s : EngineState) (tag : ℚ) :
    (rebuildLayer tag s).1.1.state = .INTERACTIVE_REBUILD ∧
    (rebuildLayer tag s).1.2 = [.stateChange .INTERACTIVE_REBUILD] :=
  ⟨rfl, rfl⟩

/-! ## Claim C3 -/

/-- C3: for every input list of K voxel specs, K = 0 included, `load`
replaces all voxels, sets count = K (also in the fired count-changed
notification), sets mode = Stable, empties both index sets, and gives every
voxel its sequential id from 0, its original position as current position,
and zero velocities, angular velocities and rotations. -/
theorem claim_C3 (jitter : ℕ → ℚ → ℚ) (data : List VoxelData) (s : EngineState) :
    (loadInitialModel jitter data s).1.voxels.length = data.length ∧
    (loadInitialModel jitter data s).1.state = .STABLE ∧
    (loadInitialModel jitter data s).1.activeRebuildIndices = ∅ ∧
    (loadInitialModel jitter data s).1.rejectingIndices = ∅ ∧
    (loadInitialModel jitter data s).2 =
      [.countChange data.length, .stateChange .STABLE] ∧
    ∀ i d, data.get? i = some d →
      ∃ v, (loadInitialModel jitter data s).1.voxels.get? i = some v ∧
        v.id = i ∧ v.x = d.x ∧ v.y = d.y ∧ v.z = d.z ∧
        v.x = v.originalX ∧ v.y = v.originalY ∧ v.z = v.originalZ ∧
        v.vx = 0 ∧ v.vy = 0 ∧ v.vz = 0 ∧
        v.rx = 0 ∧ v.ry = 0 ∧ v.rz = 0 ∧
        v.rvx = 0 ∧ v.rvy = 0 ∧ v.rvz = 0 := by
  refine ⟨?_, rfl, rfl, rfl, ?_, ?_⟩
  · simp [loadInitialModel, createVoxels, length_mapWithIdx]
  · simp [loadInitialModel, createVoxels, length_mapWithIdx]
  · intro i d hd
    refine ⟨mkVoxel jitter i d, ?_, rfl, rfl, rfl, rfl, rfl, rfl, rfl, rfl,
      rfl, rfl, rfl, rfl, rfl, rfl, rfl, rfl⟩
    show (createVoxels jitter data).get? i = _
    rw [createVoxels, get?_mapWithIdx, hd, Nat.zero_add]
    rfl

/-- Witness for C3: the empty model (K = 0) and a concrete one-voxel model. -/
theorem claim_C3_witness :
    (loadInitialModel (fun _ c => c) [] exEmptyState).1.voxels.length = 0 ∧
    (loadInitialModel (fun _ c => c) [] exEmptyState).1.state = .STABLE ∧
    (loadInitialModel (fun _ c => c) [] exEmptyState).1.activeRebuildIndices = ∅ ∧
    (loadInitialModel (fun _ c => c) [] exEmptyState).1.rejectingIndices = ∅ ∧
    (loadInitialModel (fun _ c => c) [] exEmptyState).2 =
      [.countChange 0, .stateChange .STABLE] ∧
    (∃ v, (loadInitialModel (fun _ c => c) [⟨1, 2, 3, 4, some (some 0)⟩]
        exEmptyState).1.voxels.get? 0 = some v ∧
      v.id = 0 ∧ v.x = 1 ∧ v.y = 2 ∧ v.z = 3 ∧
      v.x = v.originalX ∧ v.y = v.originalY ∧ v.z = v.originalZ ∧
      v.vx = 0 ∧ v.vy = 0 ∧ v.vz = 0 ∧
      v.rx = 0 ∧ v.ry = 0 ∧ v.rz = 0 ∧
      v.rvx = 0 ∧ v.rvy = 0 ∧ v.rvz = 0) :=
  ⟨(claim_C3 (fun _ c => c) [] exEmptyState).1,
   (claim_C3 (fun _ c => c) [] exEmptyState).2.1,
   (claim_C3 (fun _ c => c) [] exEmptyState).2.2.1,
   (claim_C3 (fun _ c => c) [] exEmptyState).2.2.2.1,
   (claim_C3 (fun _ c => c) [] exEmptyState).2.2.2.2.1,
   (claim_C3 (fun _ c => c) [⟨1, 2, 3, 4, some (some 0)⟩]
      exEmptyState).2.2.2.2.2 0 ⟨1, 2, 3, 4, some (some 0)⟩ rfl⟩

/-! ## Claim C2 -/

/-- C2: `attemptStep(T)` returns true iff the tag is carried by M > 0
voxels; it adds exactly the indices of those voxels to the active-flight set
and removes them from the rejecting set; for a tag carried by 0 voxels it
returns false and leaves both sets unchanged. -/
theorem claim_C2 (s : EngineState) (tag : ℚ) :
    ((rebuildLayer tag s).2 = true ↔ 0 < s.voxels.countP (hasTag tag)) ∧
    (rebuildLayer tag s).1.1.activeRebuildIndices =
      s.activeRebuildIndices ∪ matchingIdx s.voxels tag ∧
    (rebuildLayer tag s).1.1.rejectingIndices =
      s.rejectingIndices \ matchingIdx s.voxels tag ∧
    (s.voxels.countP (hasTag tag) = 0 →
      (rebuildLayer tag s).1.1.activeRebuildIndices = s.activeRebuildIndices ∧
      (rebuildLayer tag s).1.1.rejectingIndices = s.rejectingIndices) ∧
    (∀ i, i ∈ matchingIdx s.voxels tag ↔
      ∃ v, s.voxels.get? i = some v ∧ hasTag tag v = true) := by
  refine ⟨by simp [rebuildLayer], rfl, rfl, ?_, fun i => mem_matchingIdx⟩
  intro h0
  have hm : matchingIdx s.voxels tag = ∅ := matchingIdx_empty_iff.mpr h0
  constructor
  · show s.activeRebuildIndices ∪ matchingIdx s.voxels tag = _
    rw [hm, Finset.union_empty]
  · show s.rejectingIndices \ matchingIdx s.voxels tag = _
    rw [hm, Finset.sdiff_empty]

/-- Witness for C2: on `exState` (one voxel tagged 0), `attemptStep(0)`
returns true; `attemptStep(7)` returns false and changes neither set. -/
theorem claim_C2_witness :
    ((rebuildLayer 0 exState).2 = true ↔ 0 < exState.voxels.countP (hasTag 0)) ∧
    ((exState.voxels.countP (hasTag 7) = 0 →
      (rebuildLayer 7 exState).1.1.activeRebuildIndices = exState.activeRebuildIndices ∧
      (rebuildLayer 7 exState).1.1.rejectingIndices = exState.rejectingIndices)) :=
  ⟨(claim_C2 exState 0).1, (claim_C2 exState 7).2.2.2.1⟩

/-! ## Claim C4 -/

/-- C4: `dismantle()` in mode Stable sets mode = Dismantling (with the
notification), snapshots every voxel's rebuild target as its original
position, and gives every voxel the randomized velocities of the source —
in particular a strictly positive vertical pop (given random draws in
`[0, 1)`) — while `dismantle()` in any other mode is a complete no-op. -/
theorem claim_C4 (r : ℕ → RandSix) (s : EngineState)
    (i : ℕ) (v : SimVoxel) (hv : s.voxels.get? i = some v)
    (hb : 0 ≤ (r i).b) :
    (s.state = .STABLE →
      (dismantle r s).1.state = .DISMANTLING ∧
      (dismantle r s).2 = [.stateChange .DISMANTLING] ∧
      (dismantle r s).1.rebuildTargets.get? i =
        some ⟨v.originalX, v.originalY, v.originalZ, 0, false⟩ ∧
      ∃ v', (dismantle r s).1.voxels.get? i = some v' ∧
        v'.vy = (r i).b * 1.5 + 0.5 ∧ 0 < v'.vy ∧
        v'.vx = ((r i).a - 0.5) * 2 ∧ v'.vz = ((r i).c - 0.5) * 2 ∧
        v'.rvx = ((r i).d - 0.5) * 0.4 ∧ v'.rvy = ((r i).e - 0.5) * 0.4 ∧
        v'.rvz = ((r i).f - 0.5) * 0.4) ∧
    (s.state ≠ .STABLE → dismantle r s = (s, [])) := by
  constructor
  · intro h
    have hne : ¬s.state ≠ AppState.STABLE := by simp [h]
    rw [dismantle, if_neg hne]
    refine ⟨rfl, rfl, ?_, ?_⟩
    · show (s.voxels.map _).get? i = _
      rw [List.get?_map, hv]
      rfl
    · refine ⟨dismantleKick r i v, ?_, rfl, ?_, rfl, rfl, rfl, rfl, rfl⟩
      · show (mapWithIdx (dismantleKick r) 0 s.voxels).get? i = _
        rw [get?_mapWithIdx, hv, Nat.zero_add]
        rfl
      · show 0 < (r i).b * 1.5 + 0.5
        nlinarith
  · intro h
    rw [dismantle, if_pos h]

/-- Witness for C4 on `exState` with all random draws 0.5, and the no-op
case on the already-dismantled result. -/
theorem claim_C4_witness :
    ((exState.state = .STABLE →
      (dismantle (fun _ => ⟨0.5, 0.5, 0.5, 0.5, 0.5, 0.5⟩) exState).1.state = .DISMANTLING ∧
      (dismantle (fun _ => ⟨0.5, 0.5, 0.5, 0.5, 0.5, 0.5⟩) exState).2 =
        [.stateChange .DISMANTLING] ∧
      (dismantle (fun _ => ⟨0.5, 0.5, 0.5, 0.5, 0.5, 0.5⟩) exState).1.rebuildTargets.get? 0 =
        some ⟨exVoxel.originalX, exVoxel.originalY, exVoxel.originalZ, 0, false⟩ ∧
      ∃ v', (dismantle (fun _ => ⟨0.5, 0.5, 0.5, 0.5, 0.5, 0.5⟩) exState).1.voxels.get? 0 =
          some v' ∧
        v'.vy = 0.5 * 1.5 + 0.5 ∧ 0 < v'.vy ∧
        v'.vx = (0.5 - 0.5) * 2 ∧ v'.vz = (0.5 - 0.5) * 2 ∧
        v'.rvx = (0.5 - 0.5) * 0.4 ∧ v'.rvy = (0.5 - 0.5) * 0.4 ∧
        v'.rvz = (0.5 - 0.5) * 0.4) ∧
    (exState.state ≠ .STABLE →
      dismantle (fun _ => ⟨0.5, 0.5, 0.5, 0.5, 0.5, 0.5⟩) exState = (exState, []))) :=
  claim_C4 (fun _ => ⟨0.5, 0.5, 0.5, 0.5, 0.5, 0.5⟩) exState 0 exVoxel rfl (by norm_num)

/-! ## Claim C1 -/

/-- C1 counterexample: the claim fails after `rejectStep`. Starting from a
stable one-voxel model tagged 0, `attemptStep(0)` puts index 0 into the
active-flight set, and a following `rejectStep(0)` adds the same index to
the rejecting set without removing it from the active set (the source's
`rejectLayer` only ever adds): both sets then contain voxel 0, so they are
not disjoint after that command. -/
theorem claim_C1_counterexample :
    0 ∈ (rejectLayer 0 (fun _ => (0.5, 0.5))
          (rebuildLayer 0 exState).1.1).1.activeRebuildIndices ∧
    0 ∈ (rejectLayer 0 (fun _ => (0.5, 0.5))
          (rebuildLayer 0 exState).1.1).1.rejectingIndices := by
  decide

/-- C1 amended: the active-flight and rejecting sets are disjoint after
`load`, `dismantle`, `attemptStep` and every physics tick (assuming they
were disjoint before), and after `rejectStep` provided no voxel of the
rejected tag is currently in the active-flight set — which is how the UI
calls it; an engine-level `rejectStep` on a tag whose voxels are active
leaves those indices in both sets. -/
theorem claim_C1_amended (s : EngineState)
    (h : Disjoint s.activeRebuildIndices s.rejectingIndices)
    (jitter : ℕ → ℚ → ℚ) (data : List VoxelData) (r6 : ℕ → RandSix)
    (tag : ℚ) (r2 : ℕ → ℚ × ℚ) (fY : ℚ)
    (hrej : Disjoint (matchingIdx s.voxels tag) s.activeRebuildIndices) :
    Disjoint (loadInitialModel jitter data s).1.activeRebuildIndices
      (loadInitialModel jitter data s).1.rejectingIndices ∧
    Disjoint (dismantle r6 s).1.activeRebuildIndices
      (dismantle r6 s).1.rejectingIndices ∧
    Disjoint (rebuildLayer tag s).1.1.activeRebuildIndices
      (rebuildLayer tag s).1.1.rejectingIndices ∧
    Disjoint (rejectLayer tag r2 s).1.activeRebuildIndices
      (rejectLayer tag r2 s).1.rejectingIndices ∧
    Disjoint (updatePhysics fY s).activeRebuildIndices
      (updatePhysics fY s).rejectingIndices := by
  refine ⟨by simp [loadInitialModel], ?_, ?_, ?_, ?_⟩
  · unfold dismantle
    split
    · exact h
    · simp
  · show Disjoint (s.activeRebuildIndices ∪ matchingIdx s.voxels tag)
      (s.rejectingIndices \ matchingIdx s.voxels tag)
    rw [Finset.disjoint_left]
    intro x hx hx'
    rcases Finset.mem_union.mp hx with hA | hM
    · exact Finset.disjoint_left.mp h hA (Finset.mem_sdiff.mp hx').1
    · exact (Finset.mem_sdiff.mp hx').2 hM
  · show Disjoint s.activeRebuildIndices
      (s.rejectingIndices ∪ matchingIdx s.voxels tag)
    exact Finset.disjoint_union_right.mpr ⟨h, hrej.symm⟩
  · rw [updatePhysics_active, updatePhysics_rejecting]
    exact h

/-- Witness for C1 amended on the stable one-voxel state (both sets empty,
tag 7 matches no voxel, so both hypotheses hold). -/
theorem claim_C1_witness :
    Disjoint (loadInitialModel (fun _ c => c) [] exState).1.activeRebuildIndices
      (loadInitialModel (fun _ c => c) [] exState).1.rejectingIndices ∧
    Disjoint (dismantle (fun _ => ⟨0.5, 0.5, 0.5, 0.5, 0.5, 0.5⟩) exState).1.activeRebuildIndices
      (dismantle (fun _ => ⟨0.5, 0.5, 0.5, 0.5, 0.5, 0.5⟩) exState).1.rejectingIndices ∧
    Disjoint (rebuildLayer 7 exState).1.1.activeRebuildIndices
      (rebuildLayer 7 exState).1.1.rejectingIndices ∧
    Disjoint (rejectLayer 7 (fun _ => (0.5, 0.5)) exState).1.activeRebuildIndices
      (rejectLayer 7 (fun _ => (0.5, 0.5)) exState).1.rejectingIndices ∧
    Disjoint (updatePhysics 0 exState).activeRebuildIndices
      (updatePhysics 0 exState).rejectingIndices :=
  claim_C1_amended exState (by decide) (fun _ c => c) []
    (fun _ => ⟨0.5, 0.5, 0.5, 0.5, 0.5, 0.5⟩) 7 (fun _ => (0.5, 0.5)) 0 (by decide)

/-! ## Claim C6 -/

/-- C6: after `rejectStep`, physics ticks change neither the mode nor the
sets' membership of the mode, so when the 800ms timer fires with the mode
still REJECTING it reverts to INTERACTIVE_REBUILD and empties the rejecting
set (firing the notification); a stale timer firing when the mode is no
longer REJECTING — in particular right after a `load`, which resets the
mode to STABLE — alters no state and fires nothing. -/
theorem claim_C6 (s : EngineState) (tag : ℚ) (r2 : ℕ → ℚ × ℚ) (fY : ℚ) (n : ℕ)
    (s' : EngineState) (hs' : s'.state ≠ .REJECTING)
    (jitter : ℕ → ℚ → ℚ) (data : List VoxelData) :
    ((updatePhysics fY)^[n] (rejectLayer tag r2 s).1).state = .REJECTING ∧
    (rejectTimerFire ((updatePhysics fY)^[n] (rejectLayer tag r2 s).1)).1.state =
      .INTERACTIVE_REBUILD ∧
    (rejectTimerFire ((updatePhysics fY)^[n] (rejectLayer tag r2 s).1)).1.rejectingIndices =
      ∅ ∧
    (rejectTimerFire ((updatePhysics fY)^[n] (rejectLayer tag r2 s).1)).2 =
      [.stateChange .INTERACTIVE_REBUILD] ∧
    rejectTimerFire s' = (s', []) ∧
    rejectTimerFire (loadInitialModel jitter data s').1 =
      ((loadInitialModel jitter data s').1, []) := by
  have h2 : ((updatePhysics fY)^[n] (rejectLayer tag r2 s).1).state = .REJECTING := by
    rw [iterate_updatePhysics_state]
    rfl
  refine ⟨h2, ?_, ?_, ?_, ?_, ?_⟩
  · rw [rejectTimerFire, if_pos h2]
  · rw [rejectTimerFire, if_pos h2]
  · rw [rejectTimerFire, if_pos h2]
  · rw [rejectTimerFire, if_neg hs']
  · have hload : (loadInitialModel jitter data s').1.state = .STABLE := rfl
    rw [rejectTimerFire, if_neg (by rw [hload]; exact fun hc => AppState.noConfusion hc)]

/-- Witness for C6: concrete reject-then-timer run on `exState`, and the
stale no-op on the stable `exState` itself. -/
theorem claim_C6_witness :
    ((updatePhysics 0)^[3] (rejectLayer 0 (fun _ => (0.5, 0.5)) exState).1).state =
      .REJECTING ∧
    (rejectTimerFire ((updatePhysics 0)^[3]
        (rejectLayer 0 (fun _ => (0.5, 0.5)) exState).1)).1.state =
      .INTERACTIVE_REBUILD ∧
    (rejectTimerFire ((updatePhysics 0)^[3]
        (rejectLayer 0 (fun _ => (0.5, 0.5)) exState).1)).1.rejectingIndices = ∅ ∧
    (rejectTimerFire ((updatePhysics 0)^[3]
        (rejectLayer 0 (fun _ => (0.5, 0.5)) exState).1)).2 =
      [.stateChange .INTERACTIVE_REBUILD] ∧
    rejectTimerFire exState = (exState, []) ∧
    rejectTimerFire (loadInitialModel (fun _ c => c) [] exState).1 =
      ((loadInitialModel (fun _ c => c) [] exState).1, []) :=
  claim_C6 exState 0 (fun _ => (0.5, 0.5)) 0 3 exState (by decide) (fun _ c => c) []

/-! ## Claim C5 -/

/-- C5 fails on the code: `stuckState` holds one active voxel in
INTERACTIVE_REBUILD whose squared distance to its rebuild target is
0.04 < 0.05, so the claim requires it to snap exactly to the target with
zero rotation — but because its x-coordinate already equals the target's,
the source's snap guard `if (v.x !== t.x)` skips the snap, and the state is
a fixed point of the physics tick: the voxel sits 0.2 above its target with
a leftover rotation forever, on every future tick. -/
theorem claim_C5_bug :
    stuckState.state = .INTERACTIVE_REBUILD ∧
    0 ∈ stuckState.activeRebuildIndices ∧
    stuckVoxel.y ≠ stuckVoxel.originalY ∧
    stuckVoxel.rx ≠ 0 ∧
    updatePhysics 0 stuckState = stuckState ∧
    ∀ n, (updatePhysics 0)^[n] stuckState = stuckState := by
  have h : updatePhysics 0 stuckState = stuckState := by
    unfold updatePhysics
    norm_num [stuckState, stuckVoxel, mapWithIdx, flightStep, targetFor]
  exact ⟨rfl, by decide, by norm_num [stuckVoxel], by norm_num [stuckVoxel], h,
    fun n => Function.iterate_fixed h n⟩

/-! ## Claim C9 -/

/-- C9: for every N ≥ 0, `queryStepCentroids(N)` returns exactly N entries
and the engine state unchanged (it is read-only); for each tag below N, the
entry for a tag with zero matching voxels is the explicit not-visible
placeholder, and the entry for a tag with at least one matching voxel is
the projection of the average position of exactly the voxels carrying that
tag (untagged voxels skipped). -/
theorem claim_C9 (proj : ℚ × ℚ × ℚ → ℚ × ℚ × ℚ) (w h : ℚ) (s : EngineState)
    (N : ℕ) :
    (getStepCentroids proj w h s N).2 = s ∧
    (getStepCentroids proj w h s N).1.length = N ∧
    ∀ i, i < N →
      ((s.voxels.filter (hasTag (i : ℚ))).length = 0 →
        (getStepCentroids proj w h s N).1.get? i = some ⟨0, 0, false⟩) ∧
      (0 < (s.voxels.filter (hasTag (i : ℚ))).length →
        (getStepCentroids proj w h s N).1.get? i =
          some (specCentroid proj w h (s.voxels.filter (hasTag (i : ℚ))))) := by
  have hlen : (getStepCentroids proj w h s N).1.length = N := by
    show ((List.range N).map (centroidEntry proj w h s.voxels)).length = N
    rw [List.length_map, List.length_range]
  refine ⟨rfl, hlen, ?_⟩
  intro i hi
  have hget : (getStepCentroids proj w h s N).1.get? i =
      some (centroidEntry proj w h s.voxels i) := by
    show ((List.range N).map (centroidEntry proj w h s.voxels)).get? i = _
    rw [List.get?_map, List.get?_range hi]
    rfl
  constructor
  · intro h0
    rw [hget]
    simp only [centroidEntry, sumsFor_eq, Option.some.injEq]
    rw [if_neg (by omega)]
  · intro h0
    rw [hget]
    simp only [centroidEntry, sumsFor_eq, Option.some.injEq]
    rw [if_pos h0]
    rfl

/-- Witness for C9: the N = 0 call on `exState`, and the N = 1 call whose
single tag 0 has one matching voxel. -/
theorem claim_C9_witness :
    (getStepCentroids (fun p => p) 1 1 exState 0).2 = exState ∧
    (getStepCentroids (fun p => p) 1 1 exState 0).1.length = 0 ∧
    (getStepCentroids (fun p => p) 1 1 exState 1).1.length = 1 ∧
    (getStepCentroids (fun p => p) 1 1 exState 1).1.get? 0 =
      some (specCentroid (fun p => p) 1 1
        (exState.voxels.filter (hasTag ((0 : ℕ) : ℚ)))) :=
  ⟨(claim_C9 (fun p => p) 1 1 exState 0).1,
   (claim_C9 (fun p => p) 1 1 exState 0).2.1,
   (claim_C9 (fun p => p) 1 1 exState 1).2.1,
   ((claim_C9 (fun p => p) 1 1 exState 1).2.2 0 (by decide)).2 (by decide)⟩

/-! ## Claim C7 -/

/-- C7 counterexample: the round-trip does not reproduce every step tag.
A NaN step tag — which the core can hold after importing an entry with a
malformed `stepIndex` — is serialized by `JSON.stringify` as `null`, and the
importer computes `Number(null) = 0`: reloading `nanState` turns its NaN tag
into the tag 0. -/
theorem claim_C7_counterexample :
    nanVoxel.stepIndex = none ∧
    ((handleJsonImport (fun _ c => c) (getJsonData nanState)
        exEmptyState).1.voxels.map SimVoxel.stepIndex) = [some 0] ∧
    (some (0 : ℚ) : JsNum) ≠ (none : JsNum) := by
  refine ⟨rfl, ?_, by decide⟩
  decide

/-- C7 amended: parsing the exported JSON and loading it reproduces, in the
same index order, every voxel's position exactly, its step tag exactly
whenever that tag is an actual number (a NaN tag serializes as `null` and
re-imports as 0), and its color up to the per-voxel lightness jitter (the
new stored color is the jitter oracle applied to the old stored color; with
the identity jitter the colors round-trip exactly). Colors stored by this
repository are integer hex values below `16^6`, which is hypothesis `hc`. -/
theorem claim_C7 (jitter : ℕ → ℚ → ℚ) (s s0 : EngineState)
    (hc : ∀ v ∈ s.voxels, ∃ n : ℕ, v.color = (n : ℚ) ∧ n < 16 ^ 6)
    (i : ℕ) (v : SimVoxel) (hv : s.voxels.get? i = some v)
    (hstep : v.stepIndex ≠ none) :
    (handleJsonImport jitter (getJsonData s) s0).1.voxels.length = s.voxels.length ∧
    ∃ v', (handleJsonImport jitter (getJsonData s) s0).1.voxels.get? i = some v' ∧
      v'.x = v.x ∧ v'.y = v.y ∧ v'.z = v.z ∧
      v'.stepIndex = v.stepIndex ∧
      v'.color = jitter i v.color := by
  obtain ⟨n, hn, hlt⟩ := hc v (List.get?_mem hv)
  obtain ⟨q, hq⟩ := Option.ne_none_iff_exists'.mp hstep
  have hcol : normalizeColor .jundef (.jstr (String.mk ('#' :: colorHex v.color))) = v.color := by
    rw [hn, colorHex_natCast n hlt, normalizeColor_hexString n hlt]
  have hnorm : normalizeEntry (voxelToJson v) = ⟨v.x, v.y, v.z, v.color, some v.stepIndex⟩ := by
    unfold normalizeEntry voxelToJson
    rw [hq]
    simp only [jsonNum, VoxelData.mk.injEq]
    refine ⟨numOr_some_zero v.x, numOr_some_zero v.y, numOr_some_zero v.z, hcol, ?_⟩
    rw [if_neg (fun hh => JsVal.noConfusion hh)]
    rfl
  have hspec : ((getJsonData s).map normalizeEntry).get? i =
      some (normalizeEntry (voxelToJson v)) := by
    rw [getJsonData, List.get?_map, List.get?_map, hv]
    rfl
  constructor
  · show (createVoxels jitter ((getJsonData s).map normalizeEntry)).length = _
    rw [createVoxels, length_mapWithIdx, List.length_map, getJsonData, List.length_map]
  · refine ⟨mkVoxel jitter i ⟨v.x, v.y, v.z, v.color, some v.stepIndex⟩, ?_, rfl, rfl,
      rfl, rfl, rfl⟩
    show (createVoxels jitter ((getJsonData s).map normalizeEntry)).get? i = _
    rw [createVoxels, get?_mapWithIdx, hspec, Nat.zero_add]
    simp only [Option.map_some', hnorm]

/-- Witness for C7: the round-trip on the concrete one-voxel `exState`
(whose tag, 0, is an actual number) with the identity jitter. -/
theorem claim_C7_witness :
    (handleJsonImport (fun _ c => c) (getJsonData exState) exEmptyState).1.voxels.length =
      exState.voxels.length ∧
    ∃ v', (handleJsonImport (fun _ c => c) (getJsonData exState)
        exEmptyState).1.voxels.get? 0 = some v' ∧
      v'.x = exVoxel.x ∧ v'.y = exVoxel.y ∧ v'.z = exVoxel.z ∧
      v'.stepIndex = exVoxel.stepIndex ∧
      v'.color = (fun _ c => c : ℕ → ℚ → ℚ) 0 exVoxel.color :=
  claim_C7 (fun _ c => c) exState exEmptyState
    (by
      intro v hv
      simp only [exState, List.mem_singleton] at hv
      subst hv
      exact ⟨0, by norm_num [exVoxel], by norm_num⟩)
    0 exVoxel rfl (by decide)

/-! ## Claim C8 -/

